import Mathlib

/-!
Verification development for the XMPP MUC gateway core of
matrix-appservice-purple: a shallow embedding of
`src/xmppjs/GatewayMUCMembership.ts` (the membership registry) and of the
stanza builder layer (`Stanzas.ts`), together with theorems checking the
natural-language specification against the code.
-/

namespace MUCGateway

/-! ## JIDs

Model of the `@xmpp/jid` JID value: a local part, a domain, and an
optional resource (device qualifier).  `toString` renders
`local@domain` or `local@domain/resource`; a JID built without a
resource (or with an empty one in the JS library) is "bare".
We use `Option String` for the resource; `resource.isSome` models the
JS truthiness test `if (realJid.resource)` (the library never yields an
empty-string resource for a parsed full address). -/

structure JID where
  localpart : String
  domain : String
  resource : Option String
  deriving DecidableEq, Repr

/-- `${j.local}@${j.domain}` – the bare (resource-stripped) address string. -/
def JID.bareString (j : JID) : String := j.localpart ++ "@" ++ j.domain

/-- `JID.prototype.toString()` of `@xmpp/jid`. -/
def JID.toString (j : JID) : String :=
  match j.resource with
  | some r => j.bareString ++ "/" ++ r
  | none => j.bareString

/-- `jid(`${realJid.local}@${realJid.domain}`)` – strip the resource. -/
def JID.stripped (j : JID) : JID := ⟨j.localpart, j.domain, none⟩

/-! ## Gateway members

`IGatewayMember` with its two variants `IGatewayMemberMatrix` and
`IGatewayMemberXmpp` (`type: "matrix" | "xmpp"`).  The `devices` field of
an xmpp member is a JS `Set<string>`; we model it as an insertion-ordered
duplicate-free list of full-address strings. -/

inductive GatewayMember where
  | matrix (anonymousJid : JID) (matrixId : String)
  | xmpp (anonymousJid : JID) (matrixId : String) (realJid : JID) (devices : List String)
  deriving DecidableEq, Repr

/-- `member.type === "xmpp"`. -/
def GatewayMember.isXmpp : GatewayMember → Bool
  | .xmpp _ _ _ _ => true
  | .matrix _ _ => false

/-- `member.type === "matrix"`. -/
def GatewayMember.isMatrix : GatewayMember → Bool
  | .matrix _ _ => true
  | .xmpp _ _ _ _ => false

def GatewayMember.anonymousJid : GatewayMember → JID
  | .matrix a _ => a
  | .xmpp a _ _ _ => a

def GatewayMember.matrixId : GatewayMember → String
  | .matrix _ m => m
  | .xmpp _ m _ _ => m

/-- `user.realJid!.toString()`; only ever consulted on xmpp members
(the registry filters on `type === "xmpp"` before comparing). -/
def GatewayMember.realJidStr : GatewayMember → String
  | .xmpp _ _ r _ => r.toString
  | .matrix _ _ => ""

def GatewayMember.devices : GatewayMember → List String
  | .xmpp _ _ _ ds => ds
  | .matrix _ _ => []

/-! ## The membership registry

`GatewayMUCMembership.members : Map<string, Set<IGatewayMember>>`.
A JS `Map` with string keys and insertion-ordered `Set` values is
modelled as an association list `List (String × List GatewayMember)`;
keys are unique in every state the operations construct, and every
operation reads the first matching entry exactly as `Map.get` does. -/

abbrev MemberSet := List GatewayMember

abbrev Membership := List (String × MemberSet)

/-- `this.members.get(chatName) || new Set()`, spread into an array
(`getMembers`). -/
def getMembers (st : Membership) (chatName : String) : MemberSet :=
  match st.find? (fun p => p.1 == chatName) with
  | some p => p.2
  | none => []

/-- `this.members.set(chatName, set)`: replace the entry for `chatName`
(or append a fresh one).  Mutating a set object already stored in the
map is also expressed by this write-back. -/
def setMembers (st : Membership) (chatName : String) (ms : MemberSet) : Membership :=
  if st.any (fun p => p.1 == chatName) then
    st.map (fun p => if p.1 == chatName then (chatName, ms) else p)
  else
    st ++ [(chatName, ms)]

/-- `getXmppMembers`: `getMembers(chatName).filter((s) => s.type === "xmpp")`. -/
def getXmppMembers (st : Membership) (chatName : String) : MemberSet :=
  (getMembers st chatName).filter (fun s => s.isXmpp)

/-- `getMatrixMembers`: `getMembers(chatName).filter((s) => s.type === "matrix")`. -/
def getMatrixMembers (st : Membership) (chatName : String) : MemberSet :=
  (getMembers st chatName).filter (fun s => s.isMatrix)

/-- `getXmppMemberByRealJid`: strip the resource of the argument, then
`find` the first xmpp member whose stored `realJid.toString()` equals the
stripped string. -/
def getXmppMemberByRealJid (st : Membership) (chatName : String) (realJid : JID) :
    Option GatewayMember :=
  (getXmppMembers st chatName).find? (fun u => u.realJidStr == realJid.bareString)

/-- `getMatrixMemberByMatrixId`. -/
def getMatrixMemberByMatrixId (st : Membership) (chatName : String) (matrixId : String) :
    Option GatewayMember :=
  (getMatrixMembers st chatName).find? (fun u => u.matrixId == matrixId)

/-- `addMatrixMember`.  Returns the boolean result paired with the
updated registry. -/
def addMatrixMember (st : Membership) (chatName : String) (matrixId : String)
    (anonymousJid : JID) : Bool × Membership :=
  match getMatrixMemberByMatrixId st chatName matrixId with
  | some _ => (false, st)
  | none =>
    (true, setMembers st chatName (getMembers st chatName ++ [.matrix anonymousJid matrixId]))

/-- JS `Set.prototype.add` on a `Set<string>`: append the value unless it
is already present. -/
def addDevice (ds : List String) (d : String) : List String :=
  if ds.contains d then ds else ds ++ [d]

/-- In-place mutation of the member object found by
`getXmppMemberByRealJid`: rewrite the first xmpp member whose stored
`realJid.toString()` equals `bare`.  `f` returns the updated device set,
or `none` to model `set.delete(member)` on that same member. -/
def mutateFirstXmpp (ms : MemberSet) (bare : String)
    (f : List String → Option (List String)) : MemberSet :=
  match ms with
  | [] => []
  | m :: rest =>
    match m with
    | .xmpp a mx r ds =>
      if r.toString == bare then
        match f ds with
        | some ds' => .xmpp a mx r ds' :: rest
        | none => rest
      else
        .xmpp a mx r ds :: mutateFirstXmpp rest bare f
    | .matrix a mx => .matrix a mx :: mutateFirstXmpp rest bare f

/-- `addXmppMember`: first device of a real identity creates the
participant (returns `true`); a further device is added to the existing
participant's `devices` set (returns `false`). -/
def addXmppMember (st : Membership) (chatName : String) (realJid : JID)
    (anonymousJid : JID) (matrixId : String) : Bool × Membership :=
  let strippedDevice := realJid.stripped
  match getXmppMemberByRealJid st chatName strippedDevice with
  | some _ =>
    (false, setMembers st chatName
      (mutateFirstXmpp (getMembers st chatName) strippedDevice.toString
        (fun ds => some (addDevice ds realJid.toString))))
  | none =>
    (true, setMembers st chatName
      (getMembers st chatName ++
        [.xmpp anonymousJid matrixId strippedDevice [realJid.toString]]))

/-- `removeMatrixMember`: `set.delete(member)` on the member found by
matrix id (deletion of the first structurally equal entry; the found
member is the first entry with that matrix id). -/
def removeMatrixMember (st : Membership) (chatName : String) (matrixId : String) :
    Bool × Membership :=
  match getMatrixMemberByMatrixId st chatName matrixId with
  | none => (false, st)
  | some member =>
    ((getMembers st chatName).contains member,
      setMembers st chatName ((getMembers st chatName).erase member))

/-- `removeXmppMember`: resolve by real identity; with a device
qualifier first delete that device and keep the member while devices
remain (returning `false`); otherwise (bare address, or last device)
delete the member itself and return `true`. -/
def removeXmppMember (st : Membership) (chatName : String) (realJid : JID) :
    Bool × Membership :=
  match getXmppMemberByRealJid st chatName realJid with
  | none => (false, st)
  | some member =>
    if realJid.resource.isSome then
      let remaining := member.devices.erase realJid.toString
      if remaining.isEmpty then
        (true, setMembers st chatName
          (mutateFirstXmpp (getMembers st chatName) realJid.bareString (fun _ => none)))
      else
        (false, setMembers st chatName
          (mutateFirstXmpp (getMembers st chatName) realJid.bareString
            (fun ds => some (ds.erase realJid.toString))))
    else
      (true, setMembers st chatName
        (mutateFirstXmpp (getMembers st chatName) realJid.bareString (fun _ => none)))

/-- `new Set(iterable)` over strings: keep the first occurrence of each
element, in order. -/
def jsNewSetAux (seen : List String) : List String → List String
  | [] => []
  | x :: rest =>
    if seen.contains x then jsNewSetAux seen rest
    else x :: jsNewSetAux (x :: seen) rest

def jsNewSet (l : List String) : List String := jsNewSetAux [] l

/-- `getXmppMembersDevices`, branch taken when `FLAT_SUPPORTED` is true:
`new Set(this.getXmppMembers(chatName).map((u) => [...u.devices]).flat())`. -/
def getXmppMembersDevicesFlat (st : Membership) (chatName : String) : List String :=
  jsNewSet (((getXmppMembers st chatName).map (fun u => u.devices)).flatten)

/-- `getXmppMembersDevices`, fallback branch when `FLAT_SUPPORTED` is
false: the same device lists combined with
`.reduce((acc, val) => [ ...acc, ...val ], [])`. -/
def getXmppMembersDevicesReduce (st : Membership) (chatName : String) : List String :=
  jsNewSet (((getXmppMembers st chatName).map (fun u => u.devices)).foldl
    (fun acc val => acc ++ val) [])

/-! ## Registry invariants and operation sequences -/

/-- The matrix ids of the matrix participants of a room, in order. -/
def matrixKeys (ms : MemberSet) : List String :=
  ms.filterMap (fun m => match m with
    | .matrix _ mid => some mid
    | .xmpp _ _ _ _ => none)

/-- The stored real-identity strings of the xmpp participants of a room. -/
def xmppKeys (ms : MemberSet) : List String :=
  ms.filterMap (fun m => match m with
    | .xmpp _ _ r _ => some r.toString
    | .matrix _ _ => none)

/-- At most one MatrixParticipant per matrix user id and at most one
XmppParticipant per real identity. -/
def RoomInv (ms : MemberSet) : Prop :=
  (matrixKeys ms).Nodup ∧ (xmppKeys ms).Nodup

/-- The four mutating registry operations. -/
inductive RegistryOp where
  | addMatrix (chatName matrixId : String) (anonymousJid : JID)
  | addXmpp (chatName : String) (realJid anonymousJid : JID) (matrixId : String)
  | removeMatrix (chatName matrixId : String)
  | removeXmpp (chatName : String) (realJid : JID)

def applyOp (st : Membership) : RegistryOp → Membership
  | .addMatrix c mid anon => (addMatrixMember st c mid anon).2
  | .addXmpp c rj anon mid => (addXmppMember st c rj anon mid).2
  | .removeMatrix c mid => (removeMatrixMember st c mid).2
  | .removeXmpp c rj => (removeXmppMember st c rj).2

def applyOps (st : Membership) (ops : List RegistryOp) : Membership :=
  ops.foldl applyOp st

/-- `constructor() { this.members = new Map(); }` -/
def emptyMembership : Membership := []

/-! ## Stanza builder layer

Shallow embedding of `Stanzas.ts`.  Interpolated fields of the XML
template strings are concatenated exactly as the source orders them;
`he.encode` (the `he` package with its default options) is applied
exactly where the source applies it. -/

/-- Upper-case hexadecimal digit for `n < 16`. -/
def hexDigitChar (n : Nat) : Char :=
  if n < 10 then Char.ofNat (48 + n) else Char.ofNat (55 + n)

/-- Upper-case hexadecimal rendering of a natural number, as used in the
numeric character references `&#x...;` emitted by `he.encode`. -/
def natToHexUC (n : Nat) : String :=
  if _h : n < 16 then String.singleton (hexDigitChar n)
  else natToHexUC (n / 16) ++ String.singleton (hexDigitChar (n % 16))
termination_by n
decreasing_by exact Nat.div_lt_self (by omega) (by omega)

/-- `he.encode` with default options, per character: the unsafe symbols
`&` `<` `>` `"` `'` and the backtick, and every character outside
printable ASCII, become hexadecimal character references; every other
character is kept as itself. -/
def heEncodeChar (c : Char) : String :=
  if c.toNat = 38 then "&#x26;"
  else if c.toNat = 60 then "&#x3C;"
  else if c.toNat = 62 then "&#x3E;"
  else if c.toNat = 34 then "&#x22;"
  else if c.toNat = 39 then "&#x27;"
  else if c.toNat = 96 then "&#x60;"
  else if c.toNat < 32 || 126 < c.toNat then "&#x" ++ natToHexUC c.toNat ++ ";"
  else String.singleton c

def heEncodeList : List Char → String
  | [] => ""
  | c :: rest => heEncodeChar c ++ heEncodeList rest

/-- `he.encode(s)` with the package's default options. -/
def heEncode (s : String) : String := heEncodeList s.data

/-- `StzaBase`: `from`, `to` and `id` are he-encoded by the property
setters at construction time; `_id` stays `""` when `id` is absent or
empty (the setter returns early on a falsy value). -/
structure StzaBase where
  fromE : String
  toE : String
  idE : String
  deriving DecidableEq, Repr

/-- The `id` setter: `if (!val) { return; } this._id = he.encode(val);`
starting from `_id = ""`. -/
def storeId : Option String → String
  | none => ""
  | some v => if v = "" then "" else heEncode v

def mkStzaBase (from_ to_ : String) (id : Option String) : StzaBase :=
  ⟨heEncode from_, heEncode to_, storeId id⟩

/-- `StzaPresenceItem` (a `StzaPresence` whose `presenceType` is the
`itemType` constructor argument, with `xProtocol = "muc#user"`). -/
structure StzaPresenceItem where
  base : StzaBase
  affiliation : String
  role : String
  self : Bool
  jid : String
  itemType : String
  deriving DecidableEq, Repr

def mkStzaPresenceItem (from_ to_ : String) (id : Option String)
    (affiliation role : String) (self : Bool) (jid itemType : String) : StzaPresenceItem :=
  ⟨mkStzaBase from_ to_ id, affiliation, role, self, jid, itemType⟩

/-- The `xContent` getter: the MUC `item` element; the `jid` attribute is
emitted only for a truthy (non-empty) `jid` field, interpolated as
stored (the field has no encoding setter). -/
def StzaPresenceItem.xContent (s : StzaPresenceItem) : String :=
  let statusCode := if s.self then "<status code='110'/>" else ""
  let jidAttr := if s.jid = "" then "" else " jid='" ++ s.jid ++ "'"
  "<item affiliation='" ++ s.affiliation ++ "'" ++ jidAttr ++ " role='" ++ s.role ++ "'/>"
    ++ statusCode

/-- The `xml` getter of `StzaPresence`, specialised to
`StzaPresenceItem` (`includeXContent = true`, `presenceContent = ""`). -/
def StzaPresenceItem.xml (s : StzaPresenceItem) : String :=
  let typeAttr := if s.itemType = "" then "" else " type='" ++ s.itemType ++ "'"
  let idAttr := if s.base.idE = "" then "" else " id=\"" ++ s.base.idE ++ "\""
  let content :=
    if s.xContent = "" then "<x xmlns='http://jabber.org/protocol/muc'/>"
    else "<x xmlns='http://jabber.org/protocol/muc#user'>" ++ s.xContent ++ "</x>"
  "<presence from=\"" ++ s.base.fromE ++ "\" to=\"" ++ s.base.toE ++ "\"" ++ idAttr
    ++ typeAttr ++ ">" ++ content ++ "</presence>"

structure FormattedBody where
  fmtType : String
  body : String
  deriving DecidableEq, Repr

structure MessageAttachment where
  uri : String
  deriving DecidableEq, Repr

/-- The consumed message record
`{body, formatted?: [{type, body}], opts?: {attachments?: [{uri}]}, id?}`. -/
structure IBasicProtocolMessage where
  body : String
  formatted : Option (List FormattedBody)
  attachments : Option (List MessageAttachment)
  id : Option String
  deriving DecidableEq, Repr

structure StzaMessage where
  base : StzaBase
  html : String
  body : String
  attachments : List String
  messageType : Option String
  deriving DecidableEq, Repr

/-- `new StzaMessage(from, to, idOrMsg, messageType)` with `idOrMsg` a
message record.  `freshId` stands for the `uuid()` value generated when
neither the record nor the caller supplies a truthy id; it also passes
through the encoding `id` setter. -/
def mkStzaMessageFromRecord (from_ to_ : String) (msg : IBasicProtocolMessage)
    (messageType : Option String) (freshId : String) : StzaMessage :=
  let html :=
    match msg.formatted with
    | some fs =>
      match fs.find? (fun f => f.fmtType == "html") with
      | some f => f.body
      | none => ""
    | none => ""
  let attachments :=
    match msg.attachments with
    | some ats => ats.map (fun a => a.uri)
    | none => []
  let id0 := storeId msg.id
  let idE := if id0 = "" then storeId (some freshId) else id0
  ⟨⟨heEncode from_, heEncode to_, idE⟩, html, msg.body, attachments, messageType⟩

/-- The `xml` getter of `StzaMessage`.  It renders the stanza and, when
exactly one attachment is present, overwrites `this.body` with that
attachment's URL; the returned pair is (rendered text, updated object).
The list of out-of-band elements is interpolated as a JS array inside a
template string, so its elements are joined with commas. -/
def StzaMessage.render (m : StzaMessage) : String × StzaMessage :=
  let typeAttr :=
    match m.messageType with
    | some t => if t = "" then "" else "type='" ++ t ++ "'"
    | none => ""
  let attachmentsX := String.intercalate ","
    (m.attachments.map (fun a => "<x xmlns='jabber:x:oob'><url>" ++ heEncode a ++ "</url></x>"))
  let m' : StzaMessage :=
    if m.attachments.length = 1 then
      ⟨m.base, m.html, m.attachments.headD "", m.attachments, m.messageType⟩
    else m
  ("<message from=\"" ++ m.base.fromE ++ "\" to=\"" ++ m.base.toE ++ "\" id=\""
      ++ m.base.idE ++ "\" " ++ typeAttr ++ ">"
      ++ m'.html ++ "<body>" ++ heEncode m'.body ++ "</body>" ++ attachmentsX ++ "</message>",
    m')

def StzaMessage.xml (m : StzaMessage) : String := m.render.1

structure DiscoIdentity where
  category : String
  idType : String
  name : String
  deriving DecidableEq, Repr

/-- `StzaIqDiscoInfo` (a `StzaIqDisco` with `iqType = "result"`,
`queryType = "info"`). -/
structure StzaIqDiscoInfo where
  base : StzaBase
  identity : List DiscoIdentity
  feature : List String
  deriving DecidableEq, Repr

def mkStzaIqDiscoInfo (from_ to_ id : String) : StzaIqDiscoInfo :=
  ⟨mkStzaBase from_ to_ (some id), [], []⟩

/-- `this.identity.add({category, type, name})`: the `identity` set holds
objects and JS `Set`s compare objects by reference, so an object literal
freshly built at the call site is always a new element — the add appends
unconditionally, even when a structurally equal triple is present. -/
def StzaIqDiscoInfo.addIdentity (s : StzaIqDiscoInfo) (ident : DiscoIdentity) :
    StzaIqDiscoInfo :=
  ⟨s.base, s.identity ++ [ident], s.feature⟩

/-- `this.feature.add(feat)`: strings are compared by value in a JS
`Set`, so the add deduplicates. -/
def StzaIqDiscoInfo.addFeature (s : StzaIqDiscoInfo) (feat : String) : StzaIqDiscoInfo :=
  ⟨s.base, s.identity, if s.feature.contains feat then s.feature else s.feature ++ [feat]⟩

/-- The `queryContent` getter: `identity` then `feature` elements,
accumulated in insertion order. -/
def StzaIqDiscoInfo.queryContent (s : StzaIqDiscoInfo) : String :=
  let identity := String.join (s.identity.map (fun ident =>
    "<identity category='" ++ ident.category ++ "' type='" ++ ident.idType ++ "' name='"
      ++ ident.name ++ "'/>"))
  let feature := String.join (s.feature.map (fun feat => "<feature var='" ++ feat ++ "'/>"))
  identity ++ feature

/-- The `xml` getter of `StzaIqDisco` for disco#info.  `${this.id}` goes
through the `id` getter, which yields `undefined` (rendered literally by
the template string) when the id is unset. -/
def StzaIqDiscoInfo.xml (s : StzaIqDiscoInfo) : String :=
  let idShown := if s.base.idE = "" then "undefined" else s.base.idE
  "<iq from='" ++ s.base.fromE ++ "' to='" ++ s.base.toE ++ "' id='" ++ idShown
    ++ "' type='result'>\n        <query xmlns='http://jabber.org/protocol/disco#info'>\n        "
    ++ s.queryContent ++ "</query></iq>"

/-- Rendering as a state transformer: the disco `xml` getter performs no
assignment, so the object comes back unchanged. -/
def StzaIqDiscoInfo.render (s : StzaIqDiscoInfo) : String × StzaIqDiscoInfo := (s.xml, s)

/-! ## Observation helpers for the rendered text -/

/-- Number of positions of `l` at which `pat` occurs as a contiguous run. -/
def countPrefixOcc (pat : List Char) : List Char → Nat
  | [] => 0
  | c :: rest => (if pat.isPrefixOf (c :: rest) then 1 else 0) + countPrefixOcc pat rest

/-- Every ampersand in the list opens a character reference (it is
immediately followed by `#`; `heEncodeChar` only ever emits `&` in the
two-character run `&#`). -/
inductive AmpSafe : List Char → Prop where
  | nil : AmpSafe []
  | amp (rest : List Char) (hs : AmpSafe rest) :
      AmpSafe (Char.ofNat 38 :: Char.ofNat 35 :: rest)
  | chr (c : Char) (rest : List Char) (h : c ≠ Char.ofNat 38) (hs : AmpSafe rest) :
      AmpSafe (c :: rest)

/-- None of `<` `>` `"` `'` occurs in the list. -/
def RawFree (l : List Char) : Prop :=
  ∀ ch ∈ l, ch ≠ Char.ofNat 60 ∧ ch ≠ Char.ofNat 62 ∧ ch ≠ Char.ofNat 34 ∧ ch ≠ Char.ofNat 39

/-- The `find` inside `getXmppMemberByRealJid`, with the xmpp filter
fused into the predicate: the first xmpp member whose stored real-JID
string is `bare`. -/
def findXmppAux (ms : MemberSet) (bare : String) : Option GatewayMember :=
  ms.find? (fun u => u.isXmpp && (u.realJidStr == bare))

/-- The `find` inside `getMatrixMemberByMatrixId`, with the matrix
filter fused into the predicate. -/
def findMatrixAux (ms : MemberSet) (matrixId : String) : Option GatewayMember :=
  ms.find? (fun u => u.isMatrix && (u.matrixId == matrixId))

/-! # Theorems -/

theorem getXmppMemberByRealJid_eq_aux (st : Membership) (c : String) (j : JID) :
    getXmppMemberByRealJid st c j = findXmppAux (getMembers st c) j.bareString := by
  unfold getXmppMemberByRealJid getXmppMembers findXmppAux
  rw [List.find?_filter]
  congr 1
  funext u
  by_cases h1 : u.isXmpp <;> by_cases h2 : u.realJidStr == j.bareString <;> simp [h1, h2]

theorem getMatrixMemberByMatrixId_eq_aux (st : Membership) (c : String) (mid : String) :
    getMatrixMemberByMatrixId st c mid = findMatrixAux (getMembers st c) mid := by
  unfold getMatrixMemberByMatrixId getMatrixMembers findMatrixAux
  rw [List.find?_filter]
  congr 1
  funext u
  by_cases h1 : u.isMatrix <;> by_cases h2 : u.matrixId == mid <;> simp [h1, h2]

theorem find?_none_of_any_false (st : Membership) (c : String)
    (h : st.any (fun p => p.1 == c) = false) :
    st.find? (fun p => p.1 == c) = none := by
  rw [List.find?_eq_none]
  intro x hx hc
  have : st.any (fun p => p.1 == c) = true := List.any_eq_true.mpr ⟨x, hx, hc⟩
  rw [h] at this
  cases this

theorem find?_map_set (st : Membership) (c : String) (ms : MemberSet)
    (h : st.any (fun p => p.1 == c) = true) :
    (st.map (fun p => if p.1 == c then (c, ms) else p)).find? (fun p => p.1 == c)
      = some (c, ms) := by
  induction st with
  | nil => cases h
  | cons p rest ih =>
    by_cases hp : p.1 = c
    · have hfp : (if (p.1 == c) = true then (c, ms) else p) = (c, ms) :=
        if_pos (by simpa using hp)
      rw [List.map_cons, hfp, List.find?_cons_of_pos _ (by simp)]
    · have hr : rest.any (fun p => p.1 == c) = true := by
        simp only [List.any_cons, Bool.or_eq_true, beq_iff_eq] at h
        rcases h with h | h
        · exact absurd h hp
        · exact List.any_eq_true.mpr (by simpa using h)
      have hfp : (if (p.1 == c) = true then (c, ms) else p) = p :=
        if_neg (by simpa using hp)
      rw [List.map_cons, hfp, List.find?_cons_of_neg _ (by simpa using hp)]
      exact ih hr

theorem find?_map_set_other (st : Membership) (c c' : String) (ms : MemberSet) (h : c' ≠ c) :
    (st.map (fun p => if p.1 == c then (c, ms) else p)).find? (fun p => p.1 == c')
      = st.find? (fun p => p.1 == c') := by
  induction st with
  | nil => rfl
  | cons p rest ih =>
    by_cases hp : p.1 = c
    · have h2 : ¬(p.1 = c') := fun hc => h (hc.symm.trans hp)
      have hfp : (if (p.1 == c) = true then (c, ms) else p) = (c, ms) :=
        if_pos (by simpa using hp)
      rw [List.map_cons, hfp, List.find?_cons_of_neg _ (by simpa using Ne.symm h),
        List.find?_cons_of_neg _ (by simpa using h2), ih]
    · have hfp : (if (p.1 == c) = true then (c, ms) else p) = p :=
        if_neg (by simpa using hp)
      by_cases hc : p.1 = c'
      · rw [List.map_cons, hfp, List.find?_cons_of_pos _ (by simpa using hc),
          List.find?_cons_of_pos _ (by simpa using hc)]
      · rw [List.map_cons, hfp, List.find?_cons_of_neg _ (by simpa using hc),
          List.find?_cons_of_neg _ (by simpa using hc), ih]

theorem getMembers_setMembers_self (st : Membership) (c : String) (ms : MemberSet) :
    getMembers (setMembers st c ms) c = ms := by
  unfold setMembers
  by_cases h : st.any (fun p => p.1 == c) = true
  · simp only [h, if_true]
    unfold getMembers
    rw [find?_map_set st c ms h]
  · simp only [Bool.not_eq_true] at h
    simp only [h, Bool.false_eq_true, if_false]
    unfold getMembers
    rw [List.find?_append, find?_none_of_any_false st c h]
    simp [List.find?_cons]

theorem getMembers_setMembers_ne (st : Membership) (c c' : String) (ms : MemberSet)
    (h : c' ≠ c) : getMembers (setMembers st c ms) c' = getMembers st c' := by
  unfold setMembers
  by_cases ha : st.any (fun p => p.1 == c) = true
  · simp only [ha, if_true]
    unfold getMembers
    rw [find?_map_set_other st c c' ms h]
  · simp only [Bool.not_eq_true] at ha
    simp only [ha, Bool.false_eq_true, if_false]
    unfold getMembers
    rw [List.find?_append]
    cases hf : st.find? (fun p => p.1 == c') with
    | some p => simp
    | none => simp [List.find?_cons, Ne.symm h]

theorem findXmppAux_some_shape (ms : MemberSet) (bare : String) (m : GatewayMember)
    (h : findXmppAux ms bare = some m) :
    ∃ a mx r ds, m = GatewayMember.xmpp a mx r ds ∧ r.toString = bare := by
  have hp := List.find?_some h
  cases m with
  | matrix a mx => simp [GatewayMember.isXmpp] at hp
  | xmpp a mx r ds =>
    refine ⟨a, mx, r, ds, rfl, ?_⟩
    simpa [GatewayMember.isXmpp, GatewayMember.realJidStr] using hp

theorem mutateFirstXmpp_of_none (ms : MemberSet) (bare : String)
    (f : List String → Option (List String)) (h : findXmppAux ms bare = none) :
    mutateFirstXmpp ms bare f = ms := by
  induction ms with
  | nil => rfl
  | cons m rest ih =>
    cases m with
    | matrix a mx =>
      simp only [findXmppAux] at h
      rw [List.find?_cons_of_neg _ (by simp [GatewayMember.isXmpp])] at h
      simp [mutateFirstXmpp, ih (by simpa [findXmppAux] using h)]
    | xmpp a mx r ds =>
      by_cases hb : r.toString = bare
      · exfalso
        simp only [findXmppAux] at h
        rw [List.find?_cons_of_pos _
          (by simp [GatewayMember.isXmpp, GatewayMember.realJidStr, hb])] at h
        cases h
      · simp only [findXmppAux] at h
        rw [List.find?_cons_of_neg _
          (by simp [GatewayMember.isXmpp, GatewayMember.realJidStr, hb])] at h
        simp [mutateFirstXmpp, hb, ih (by simpa [findXmppAux] using h)]

theorem mutateFirstXmpp_append_left (l1 l2 : MemberSet) (bare : String)
    (f : List String → Option (List String)) (h : findXmppAux l1 bare = none) :
    mutateFirstXmpp (l1 ++ l2) bare f = l1 ++ mutateFirstXmpp l2 bare f := by
  induction l1 with
  | nil => rfl
  | cons m rest ih =>
    cases m with
    | matrix a mx =>
      simp only [findXmppAux] at h
      rw [List.find?_cons_of_neg _ (by simp [GatewayMember.isXmpp])] at h
      simp [mutateFirstXmpp, ih (by simpa [findXmppAux] using h)]
    | xmpp a mx r ds =>
      by_cases hb : r.toString = bare
      · exfalso
        simp only [findXmppAux] at h
        rw [List.find?_cons_of_pos _
          (by simp [GatewayMember.isXmpp, GatewayMember.realJidStr, hb])] at h
        cases h
      · simp only [findXmppAux] at h
        rw [List.find?_cons_of_neg _
          (by simp [GatewayMember.isXmpp, GatewayMember.realJidStr, hb])] at h
        simp [mutateFirstXmpp, hb, ih (by simpa [findXmppAux] using h)]

theorem findXmppAux_mutate_some (ms : MemberSet) (bare : String)
    (g : List String → List String) (a : JID) (mx : String) (r : JID) (ds : List String)
    (h : findXmppAux ms bare = some (.xmpp a mx r ds)) :
    findXmppAux (mutateFirstXmpp ms bare (fun dv => some (g dv))) bare
      = some (.xmpp a mx r (g ds)) := by
  induction ms with
  | nil => cases h
  | cons m rest ih =>
    cases m with
    | matrix a' mx' =>
      simp only [findXmppAux] at h
      rw [List.find?_cons_of_neg _ (by simp [GatewayMember.isXmpp])] at h
      have := ih (by simpa [findXmppAux] using h)
      simp only [mutateFirstXmpp, findXmppAux]
      rw [List.find?_cons_of_neg _ (by simp [GatewayMember.isXmpp])]
      simpa [findXmppAux] using this
    | xmpp a' mx' r' ds' =>
      by_cases hb : r'.toString = bare
      · simp only [findXmppAux] at h
        rw [List.find?_cons_of_pos _
          (by simp [GatewayMember.isXmpp, GatewayMember.realJidStr, hb])] at h
        injection h with h
        cases h
        have hcond : (r.toString == bare) = true := by simpa using hb
        simp only [mutateFirstXmpp, hcond, if_true, findXmppAux]
        rw [List.find?_cons_of_pos _
          (by simp [GatewayMember.isXmpp, GatewayMember.realJidStr, hb])]
      · simp only [findXmppAux] at h
        rw [List.find?_cons_of_neg _
          (by simp [GatewayMember.isXmpp, GatewayMember.realJidStr, hb])] at h
        have := ih (by simpa [findXmppAux] using h)
        have hcond : (r'.toString == bare) = false := by simpa using hb
        simp only [mutateFirstXmpp, hcond, Bool.false_eq_true, if_false, findXmppAux]
        rw [List.find?_cons_of_neg _
          (by simp [GatewayMember.isXmpp, GatewayMember.realJidStr, hb])]
        simpa [findXmppAux] using this

theorem matrixKeys_cons_matrix (a : JID) (mx : String) (ms : MemberSet) :
    matrixKeys (GatewayMember.matrix a mx :: ms) = mx :: matrixKeys ms := rfl

theorem matrixKeys_cons_xmpp (a : JID) (mx : String) (r : JID) (ds : List String)
    (ms : MemberSet) : matrixKeys (GatewayMember.xmpp a mx r ds :: ms) = matrixKeys ms := rfl

theorem xmppKeys_cons_matrix (a : JID) (mx : String) (ms : MemberSet) :
    xmppKeys (GatewayMember.matrix a mx :: ms) = xmppKeys ms := rfl

theorem xmppKeys_cons_xmpp (a : JID) (mx : String) (r : JID) (ds : List String)
    (ms : MemberSet) :
    xmppKeys (GatewayMember.xmpp a mx r ds :: ms) = r.toString :: xmppKeys ms := rfl

theorem findXmppAux_none_of_not_mem (ms : MemberSet) (bare : String)
    (h : bare ∉ xmppKeys ms) : findXmppAux ms bare = none := by
  induction ms with
  | nil => rfl
  | cons m rest ih =>
    cases m with
    | matrix a mx =>
      simp only [xmppKeys, List.filterMap_cons] at h
      simp only [findXmppAux]
      rw [List.find?_cons_of_neg _ (by simp [GatewayMember.isXmpp])]
      exact ih (by simpa [xmppKeys] using h)
    | xmpp a mx r ds =>
      simp only [xmppKeys, List.filterMap_cons, List.mem_cons, not_or] at h
      simp only [findXmppAux]
      rw [List.find?_cons_of_neg _
        (by simp [GatewayMember.isXmpp, GatewayMember.realJidStr]
            exact fun hc => h.1 hc.symm)]
      exact ih (by simpa [xmppKeys] using h.2)

theorem findXmppAux_mutate_del_none (ms : MemberSet) (bare : String)
    (hnd : (xmppKeys ms).Nodup) :
    findXmppAux (mutateFirstXmpp ms bare (fun _ => none)) bare = none := by
  induction ms with
  | nil => rfl
  | cons m rest ih =>
    cases m with
    | matrix a mx =>
      have hnd' : (xmppKeys rest).Nodup := by
        simpa [xmppKeys, List.filterMap_cons] using hnd
      simp only [mutateFirstXmpp, findXmppAux]
      rw [List.find?_cons_of_neg _ (by simp [GatewayMember.isXmpp])]
      simpa [findXmppAux] using ih hnd'
    | xmpp a mx r ds =>
      have hnd2 : (r.toString :: xmppKeys rest).Nodup := by
        rwa [xmppKeys_cons_xmpp] at hnd
      have hcons := List.nodup_cons.mp hnd2
      by_cases hb : r.toString = bare
      · have hcond : (r.toString == bare) = true := by simpa using hb
        simp only [mutateFirstXmpp, hcond, if_true]
        exact findXmppAux_none_of_not_mem rest bare (hb ▸ hcons.1)
      · have hcond : (r.toString == bare) = false := by simpa using hb
        simp only [mutateFirstXmpp, hcond, Bool.false_eq_true, if_false, findXmppAux]
        rw [List.find?_cons_of_neg _
          (by simp [GatewayMember.isXmpp, GatewayMember.realJidStr, hb])]
        simpa [findXmppAux] using ih hcons.2

theorem matrixKeys_mutateFirstXmpp (ms : MemberSet) (bare : String)
    (f : List String → Option (List String)) :
    matrixKeys (mutateFirstXmpp ms bare f) = matrixKeys ms := by
  induction ms with
  | nil => rfl
  | cons m rest ih =>
    cases m with
    | matrix a mx => simp only [mutateFirstXmpp, matrixKeys_cons_matrix, ih]
    | xmpp a mx r ds =>
      by_cases hb : r.toString = bare
      · have hcond : (r.toString == bare) = true := by simpa using hb
        cases hf : f ds with
        | some ds' => simp only [mutateFirstXmpp, hcond, if_true, hf, matrixKeys_cons_xmpp]
        | none => simp only [mutateFirstXmpp, hcond, if_true, hf, matrixKeys_cons_xmpp]
      · have hcond : (r.toString == bare) = false := by simpa using hb
        simp only [mutateFirstXmpp, hcond, Bool.false_eq_true, if_false,
          matrixKeys_cons_xmpp, ih]

theorem xmppKeys_mutate_some (ms : MemberSet) (bare : String)
    (g : List String → List String) :
    xmppKeys (mutateFirstXmpp ms bare (fun dv => some (g dv))) = xmppKeys ms := by
  induction ms with
  | nil => rfl
  | cons m rest ih =>
    cases m with
    | matrix a mx => simp only [mutateFirstXmpp, xmppKeys_cons_matrix, ih]
    | xmpp a mx r ds =>
      by_cases hb : r.toString = bare
      · have hcond : (r.toString == bare) = true := by simpa using hb
        simp only [mutateFirstXmpp, hcond, if_true, xmppKeys_cons_xmpp]
      · have hcond : (r.toString == bare) = false := by simpa using hb
        simp only [mutateFirstXmpp, hcond, Bool.false_eq_true, if_false,
          xmppKeys_cons_xmpp, ih]

theorem mutate_del_sublist (ms : MemberSet) (bare : String) :
    List.Sublist (mutateFirstXmpp ms bare (fun _ => none)) ms := by
  induction ms with
  | nil => exact List.Sublist.refl _
  | cons m rest ih =>
    cases m with
    | matrix a mx =>
      simp only [mutateFirstXmpp]
      exact List.Sublist.cons₂ _ ih
    | xmpp a mx r ds =>
      by_cases hb : r.toString = bare
      · have hcond : (r.toString == bare) = true := by simpa using hb
        simp only [mutateFirstXmpp, hcond, if_true]
        exact List.sublist_cons_self _ _
      · have hcond : (r.toString == bare) = false := by simpa using hb
        simp only [mutateFirstXmpp, hcond, Bool.false_eq_true, if_false]
        exact List.Sublist.cons₂ _ ih

theorem findMatrixAux_append (l1 l2 : MemberSet) (mid : String) :
    findMatrixAux (l1 ++ l2) mid = (findMatrixAux l1 mid).or (findMatrixAux l2 mid) :=
  List.find?_append

theorem findXmppAux_append (l1 l2 : MemberSet) (bare : String) :
    findXmppAux (l1 ++ l2) bare = (findXmppAux l1 bare).or (findXmppAux l2 bare) :=
  List.find?_append

theorem addMatrixMember_of_found (st : Membership) (c u : String) (anon : JID)
    (m : GatewayMember) (h : getMatrixMemberByMatrixId st c u = some m) :
    addMatrixMember st c u anon = (false, st) := by
  simp only [addMatrixMember, h]

theorem addXmppMember_of_found (st : Membership) (c : String) (j anon : JID) (mx : String)
    (m : GatewayMember) (h : getXmppMemberByRealJid st c j.stripped = some m) :
    addXmppMember st c j anon mx
      = (false, setMembers st c
          (mutateFirstXmpp (getMembers st c) j.stripped.toString
            (fun ds => some (addDevice ds j.toString)))) := by
  simp only [addXmppMember, h]

/-- **C4**: after `addMatrixMember(R, U, anon)` succeeds, a second
identical call returns `false`, makes no change to the registry (the
operation is total, so no exception arises), and exactly one
MatrixParticipant for U exists in R. -/
theorem c4_addMatrixMember_redundant (st : Membership) (c u : String) (anon : JID)
    (h : (addMatrixMember st c u anon).1 = true) :
    addMatrixMember (addMatrixMember st c u anon).2 c u anon
        = (false, (addMatrixMember st c u anon).2) ∧
    ((getMatrixMembers (addMatrixMember st c u anon).2 c).filter
        (fun m => m.matrixId == u)).length = 1 := by
  have hnone : getMatrixMemberByMatrixId st c u = none := by
    cases hx : getMatrixMemberByMatrixId st c u with
    | none => rfl
    | some m => simp [addMatrixMember, hx] at h
  have hst1 : addMatrixMember st c u anon
      = (true, setMembers st c (getMembers st c ++ [.matrix anon u])) := by
    simp only [addMatrixMember, hnone]
  have hget : getMembers (addMatrixMember st c u anon).2 c
      = getMembers st c ++ [.matrix anon u] := by
    rw [hst1, getMembers_setMembers_self]
  have hfindnone : findMatrixAux (getMembers st c) u = none := by
    rw [← getMatrixMemberByMatrixId_eq_aux, hnone]
  have hforall := List.find?_eq_none.mp hfindnone
  constructor
  · have hfind : getMatrixMemberByMatrixId (addMatrixMember st c u anon).2 c u
        = some (.matrix anon u) := by
      rw [getMatrixMemberByMatrixId_eq_aux, hget, findMatrixAux_append, hfindnone]
      simp [findMatrixAux, List.find?_cons, GatewayMember.isMatrix, GatewayMember.matrixId]
    exact addMatrixMember_of_found _ c u anon _ hfind
  · unfold getMatrixMembers
    rw [hget, List.filter_append, List.filter_append]
    have h1 : ((getMembers st c).filter (fun s => s.isMatrix)).filter
        (fun m => m.matrixId == u) = [] := by
      rw [List.filter_eq_nil_iff]
      intro m hm
      have hmem := List.mem_filter.mp hm
      have := hforall m hmem.1
      simp only [Bool.and_eq_true, not_and] at this
      simpa using this hmem.2
    rw [h1]
    simp [List.filter_cons, GatewayMember.isMatrix, GatewayMember.matrixId]

/-- **C10** (frame effect of `addXmppMember`): a further add for a real
identity that already has an XmppParticipant — with any, possibly
different, anonymous identity and matrix id — returns `false` and keeps
the existing participant's `anonymousJid`, `matrixId` and real identity
from the first add; only the device set is extended (with the new full
address, unless already present). -/
theorem c10_addXmppMember_frame (st : Membership) (c : String) (j anon2 : JID)
    (mx2 : String) (m : GatewayMember)
    (hm : getXmppMemberByRealJid st c j.stripped = some m) :
    (addXmppMember st c j anon2 mx2).1 = false ∧
    ∃ m', getXmppMemberByRealJid (addXmppMember st c j anon2 mx2).2 c j.stripped = some m' ∧
      m'.anonymousJid = m.anonymousJid ∧ m'.matrixId = m.matrixId ∧
      m'.realJidStr = m.realJidStr ∧ m'.isXmpp = true ∧
      m'.devices = addDevice m.devices j.toString := by
  have hm' : findXmppAux (getMembers st c) j.bareString = some m := by
    have := getXmppMemberByRealJid_eq_aux st c j.stripped
    rw [hm] at this
    exact this.symm
  obtain ⟨a, mx, r, ds, hshape, _hr⟩ := findXmppAux_some_shape _ _ _ hm'
  subst hshape
  have hres : addXmppMember st c j anon2 mx2
      = (false, setMembers st c
          (mutateFirstXmpp (getMembers st c) j.stripped.toString
            (fun dv => some (addDevice dv j.toString)))) := by
    simp only [addXmppMember, hm]
  refine ⟨by rw [hres], GatewayMember.xmpp a mx r (addDevice ds j.toString), ?_,
    rfl, rfl, rfl, rfl, rfl⟩
  rw [hres, getXmppMemberByRealJid_eq_aux, getMembers_setMembers_self]
  exact findXmppAux_mutate_some _ _ _ a mx r ds hm'

/-- **C1**: on a room that does not yet contain the real identity
`l@dom`, adding device `l@dom/r1` returns `true`; a subsequent add of a
distinct device `l@dom/r2` returns `false`; afterwards the room's xmpp
member list contains exactly one participant for that identity, and its
device set is exactly the two full addresses (the pinned list gives the
set `{d1, d2}`, devices being duplicate-free). -/
theorem c1_addXmppMember_two_devices (st : Membership) (c l dom r1 r2 : String)
    (anon anon2 : JID) (mx mx2 : String)
    (hfresh : getXmppMemberByRealJid st c ⟨l, dom, some r1⟩ = none)
    (hne : JID.toString ⟨l, dom, some r1⟩ ≠ JID.toString ⟨l, dom, some r2⟩) :
    (addXmppMember st c ⟨l, dom, some r1⟩ anon mx).1 = true ∧
    (addXmppMember (addXmppMember st c ⟨l, dom, some r1⟩ anon mx).2 c
        ⟨l, dom, some r2⟩ anon2 mx2).1 = false ∧
    ((getXmppMembers (addXmppMember (addXmppMember st c ⟨l, dom, some r1⟩ anon mx).2 c
        ⟨l, dom, some r2⟩ anon2 mx2).2 c).filter
        (fun m => m.realJidStr == l ++ "@" ++ dom))
      = [GatewayMember.xmpp anon mx ⟨l, dom, none⟩
          [JID.toString ⟨l, dom, some r1⟩, JID.toString ⟨l, dom, some r2⟩]] := by
  have hfresh' : findXmppAux (getMembers st c) (l ++ "@" ++ dom) = none := by
    have := getXmppMemberByRealJid_eq_aux st c ⟨l, dom, some r1⟩
    rw [hfresh] at this
    exact this.symm
  have hlookup1 : getXmppMemberByRealJid st c (JID.stripped ⟨l, dom, some r1⟩) = none := by
    rw [getXmppMemberByRealJid_eq_aux]
    exact hfresh'
  have hadd1 : addXmppMember st c ⟨l, dom, some r1⟩ anon mx
      = (true, setMembers st c (getMembers st c ++
          [.xmpp anon mx (JID.stripped ⟨l, dom, some r1⟩)
            [JID.toString ⟨l, dom, some r1⟩]])) := by
    simp only [addXmppMember, hlookup1]
  have hget1 : getMembers (addXmppMember st c ⟨l, dom, some r1⟩ anon mx).2 c
      = getMembers st c ++
          [.xmpp anon mx (JID.stripped ⟨l, dom, some r1⟩)
            [JID.toString ⟨l, dom, some r1⟩]] := by
    rw [hadd1, getMembers_setMembers_self]
  have hfind2 : findXmppAux (getMembers st c ++
        [.xmpp anon mx (JID.stripped ⟨l, dom, some r1⟩)
          [JID.toString ⟨l, dom, some r1⟩]]) (l ++ "@" ++ dom)
      = some (.xmpp anon mx (JID.stripped ⟨l, dom, some r1⟩)
          [JID.toString ⟨l, dom, some r1⟩]) := by
    rw [findXmppAux_append, hfresh']
    simp [findXmppAux, List.find?_cons, GatewayMember.isXmpp, GatewayMember.realJidStr,
      JID.toString, JID.bareString, JID.stripped]
  have hlookup2 : getXmppMemberByRealJid (addXmppMember st c ⟨l, dom, some r1⟩ anon mx).2 c
        (JID.stripped ⟨l, dom, some r2⟩)
      = some (.xmpp anon mx (JID.stripped ⟨l, dom, some r1⟩)
          [JID.toString ⟨l, dom, some r1⟩]) := by
    rw [getXmppMemberByRealJid_eq_aux, hget1]
    exact hfind2
  have hadd2 : addXmppMember (addXmppMember st c ⟨l, dom, some r1⟩ anon mx).2 c
        ⟨l, dom, some r2⟩ anon2 mx2
      = (false, setMembers (addXmppMember st c ⟨l, dom, some r1⟩ anon mx).2 c
          (mutateFirstXmpp (getMembers (addXmppMember st c ⟨l, dom, some r1⟩ anon mx).2 c)
            (JID.stripped ⟨l, dom, some r2⟩).toString
            (fun dv => some (addDevice dv (JID.toString ⟨l, dom, some r2⟩))))) := by
    exact addXmppMember_of_found _ c _ anon2 mx2 _ hlookup2
  have hdev : addDevice [JID.toString ⟨l, dom, some r1⟩] (JID.toString ⟨l, dom, some r2⟩)
      = [JID.toString ⟨l, dom, some r1⟩, JID.toString ⟨l, dom, some r2⟩] := by
    unfold addDevice
    rw [if_neg (by simp [List.contains_cons, Ne.symm hne])]
    rfl
  have hmut : mutateFirstXmpp (getMembers (addXmppMember st c ⟨l, dom, some r1⟩ anon mx).2 c)
        (JID.stripped ⟨l, dom, some r2⟩).toString
        (fun dv => some (addDevice dv (JID.toString ⟨l, dom, some r2⟩)))
      = getMembers st c ++
          [.xmpp anon mx (JID.stripped ⟨l, dom, some r1⟩)
            [JID.toString ⟨l, dom, some r1⟩, JID.toString ⟨l, dom, some r2⟩]] := by
    have hbs2 : (JID.stripped (⟨l, dom, some r2⟩ : JID)).toString = l ++ "@" ++ dom := rfl
    rw [hget1, hbs2, mutateFirstXmpp_append_left _ _ _ _ hfresh']
    simp only [mutateFirstXmpp]
    rw [if_pos (show ((JID.stripped (⟨l, dom, some r1⟩ : JID)).toString
        == l ++ "@" ++ dom) = true by
      simp [JID.toString, JID.bareString, JID.stripped]), hdev]
  refine ⟨by rw [hadd1], by rw [hadd2], ?_⟩
  unfold getXmppMembers
  rw [hadd2]
  rw [getMembers_setMembers_self, hmut, List.filter_append, List.filter_append]
  have hold : ((getMembers st c).filter (fun s => s.isXmpp)).filter
      (fun m => m.realJidStr == l ++ "@" ++ dom) = [] := by
    rw [List.filter_eq_nil_iff]
    intro m hm
    have hmem := List.mem_filter.mp hm
    have := List.find?_eq_none.mp hfresh' m hmem.1
    simp only [Bool.and_eq_true, not_and] at this
    simpa using this hmem.2
  rw [hold]
  simp [List.filter_cons, GatewayMember.isXmpp, GatewayMember.realJidStr,
    JID.toString, JID.bareString, JID.stripped]

theorem removeXmppMember_res_some_not_last (st : Membership) (c : String) (j : JID)
    (m : GatewayMember) (h : getXmppMemberByRealJid st c j = some m)
    (hres : j.resource.isSome = true)
    (hne : (m.devices.erase j.toString).isEmpty = false) :
    removeXmppMember st c j
      = (false, setMembers st c
          (mutateFirstXmpp (getMembers st c) j.bareString
            (fun ds => some (ds.erase j.toString)))) := by
  simp [removeXmppMember, h, hres, hne]

theorem removeXmppMember_res_some_last (st : Membership) (c : String) (j : JID)
    (m : GatewayMember) (h : getXmppMemberByRealJid st c j = some m)
    (hres : j.resource.isSome = true)
    (hemp : (m.devices.erase j.toString).isEmpty = true) :
    removeXmppMember st c j
      = (true, setMembers st c
          (mutateFirstXmpp (getMembers st c) j.bareString (fun _ => none))) := by
  simp [removeXmppMember, h, hres, hemp]

theorem removeXmppMember_bare (st : Membership) (c : String) (j : JID)
    (m : GatewayMember) (h : getXmppMemberByRealJid st c j = some m)
    (hres : j.resource = none) :
    removeXmppMember st c j
      = (true, setMembers st c
          (mutateFirstXmpp (getMembers st c) j.bareString (fun _ => none))) := by
  simp [removeXmppMember, h, hres]

/-- **C2**: `removeXmppMember` in a room satisfying the uniqueness
invariant.  With a device-qualified address it removes only that device
and returns `false` while devices remain; when that was the last device
it removes the whole participant and returns `true`; with the bare real
identity it removes the whole participant and returns `true` regardless
of how many devices remain. -/
theorem c2_removeXmppMember (st : Membership) (c : String) (j : JID) (m : GatewayMember)
    (hInv : RoomInv (getMembers st c))
    (hm : getXmppMemberByRealJid st c j = some m) :
    (j.resource.isSome = true →
      ((m.devices.erase j.toString ≠ [] →
        (removeXmppMember st c j).1 = false ∧
        ∃ m', getXmppMemberByRealJid (removeXmppMember st c j).2 c j = some m' ∧
          m'.anonymousJid = m.anonymousJid ∧ m'.matrixId = m.matrixId ∧
          m'.realJidStr = m.realJidStr ∧
          m'.devices = m.devices.erase j.toString) ∧
       (m.devices.erase j.toString = [] →
        (removeXmppMember st c j).1 = true ∧
        getXmppMemberByRealJid (removeXmppMember st c j).2 c j = none))) ∧
    (j.resource = none →
      (removeXmppMember st c j).1 = true ∧
      getXmppMemberByRealJid (removeXmppMember st c j).2 c j = none) := by
  have hm' : findXmppAux (getMembers st c) j.bareString = some m := by
    have := getXmppMemberByRealJid_eq_aux st c j
    rw [hm] at this
    exact this.symm
  obtain ⟨a, mx, r, ds, hshape, _hr⟩ := findXmppAux_some_shape _ _ _ hm'
  subst hshape
  constructor
  · intro hres
    constructor
    · intro hne
      have hne' : (((GatewayMember.xmpp a mx r ds : GatewayMember).devices).erase
          j.toString).isEmpty = false := by
        cases hh : (((GatewayMember.xmpp a mx r ds : GatewayMember).devices).erase
            j.toString).isEmpty with
        | false => rfl
        | true => exact absurd (List.isEmpty_iff.mp hh) hne
      rw [removeXmppMember_res_some_not_last st c j _ hm hres hne']
      refine ⟨rfl, GatewayMember.xmpp a mx r (ds.erase j.toString), ?_, rfl, rfl, rfl, rfl⟩
      rw [getXmppMemberByRealJid_eq_aux, getMembers_setMembers_self]
      exact findXmppAux_mutate_some _ _ _ a mx r ds hm'
    · intro hemp
      have hemp' : (((GatewayMember.xmpp a mx r ds : GatewayMember).devices).erase
          j.toString).isEmpty = true := List.isEmpty_iff.mpr hemp
      rw [removeXmppMember_res_some_last st c j _ hm hres hemp']
      refine ⟨rfl, ?_⟩
      rw [getXmppMemberByRealJid_eq_aux, getMembers_setMembers_self]
      exact findXmppAux_mutate_del_none _ _ hInv.2
  · intro hres
    rw [removeXmppMember_bare st c j _ hm hres]
    refine ⟨rfl, ?_⟩
    rw [getXmppMemberByRealJid_eq_aux, getMembers_setMembers_self]
    exact findXmppAux_mutate_del_none _ _ hInv.2

theorem matrixKeys_append (l1 l2 : MemberSet) :
    matrixKeys (l1 ++ l2) = matrixKeys l1 ++ matrixKeys l2 :=
  List.filterMap_append _ _ _

theorem xmppKeys_append (l1 l2 : MemberSet) :
    xmppKeys (l1 ++ l2) = xmppKeys l1 ++ xmppKeys l2 :=
  List.filterMap_append _ _ _

theorem matrixKeys_sublist (l1 l2 : MemberSet) (h : List.Sublist l1 l2) :
    List.Sublist (matrixKeys l1) (matrixKeys l2) := List.Sublist.filterMap _ h

theorem xmppKeys_sublist (l1 l2 : MemberSet) (h : List.Sublist l1 l2) :
    List.Sublist (xmppKeys l1) (xmppKeys l2) := List.Sublist.filterMap _ h

theorem not_mem_matrixKeys_of_find_none (ms : MemberSet) (mid : String)
    (h : findMatrixAux ms mid = none) : mid ∉ matrixKeys ms := by
  induction ms with
  | nil => simp [matrixKeys]
  | cons m rest ih =>
    cases m with
    | matrix a mx =>
      simp only [findMatrixAux] at h
      by_cases hmx : mx = mid
      · rw [List.find?_cons_of_pos _
          (by simp [GatewayMember.isMatrix, GatewayMember.matrixId, hmx])] at h
        cases h
      · rw [List.find?_cons_of_neg _
          (by simp [GatewayMember.isMatrix, GatewayMember.matrixId, hmx])] at h
        rw [matrixKeys_cons_matrix]
        simp only [List.mem_cons, not_or]
        exact ⟨fun hc => hmx hc.symm, ih (by simpa [findMatrixAux] using h)⟩
    | xmpp a mx r dv =>
      simp only [findMatrixAux] at h
      rw [List.find?_cons_of_neg _ (by simp [GatewayMember.isMatrix])] at h
      rw [matrixKeys_cons_xmpp]
      exact ih (by simpa [findMatrixAux] using h)

theorem not_mem_xmppKeys_of_find_none (ms : MemberSet) (bare : String)
    (h : findXmppAux ms bare = none) : bare ∉ xmppKeys ms := by
  induction ms with
  | nil => simp [xmppKeys]
  | cons m rest ih =>
    cases m with
    | matrix a mx =>
      simp only [findXmppAux] at h
      rw [List.find?_cons_of_neg _ (by simp [GatewayMember.isXmpp])] at h
      rw [xmppKeys_cons_matrix]
      exact ih (by simpa [findXmppAux] using h)
    | xmpp a mx r dv =>
      simp only [findXmppAux] at h
      by_cases hb : r.toString = bare
      · rw [List.find?_cons_of_pos _
          (by simp [GatewayMember.isXmpp, GatewayMember.realJidStr, hb])] at h
        cases h
      · rw [List.find?_cons_of_neg _
          (by simp [GatewayMember.isXmpp, GatewayMember.realJidStr, hb])] at h
        rw [xmppKeys_cons_xmpp]
        simp only [List.mem_cons, not_or]
        exact ⟨fun hc => hb hc.symm, ih (by simpa [findXmppAux] using h)⟩

theorem roomInv_applyOp (st : Membership) (op : RegistryOp)
    (h : ∀ c', RoomInv (getMembers st c')) :
    ∀ c', RoomInv (getMembers (applyOp st op) c') := by
  intro c'
  cases op with
  | addMatrix c mid anon =>
    cases hx : getMatrixMemberByMatrixId st c mid with
    | some m =>
      simp only [applyOp, addMatrixMember, hx]
      exact h c'
    | none =>
      simp only [applyOp, addMatrixMember, hx]
      by_cases hc : c' = c
      · subst hc
        rw [getMembers_setMembers_self]
        have hnotin : mid ∉ matrixKeys (getMembers st c') := by
          apply not_mem_matrixKeys_of_find_none
          rw [← getMatrixMemberByMatrixId_eq_aux, hx]
        constructor
        · rw [matrixKeys_append, matrixKeys_cons_matrix]
          rw [List.nodup_append]
          refine ⟨(h c').1, by simp [matrixKeys], ?_⟩
          intro x hxk hmem
          simp only [matrixKeys, List.filterMap_nil, List.mem_cons,
            List.not_mem_nil, or_false] at hmem
          exact hnotin (hmem ▸ hxk)
        · rw [xmppKeys_append, xmppKeys_cons_matrix]
          simpa [xmppKeys] using (h c').2
      · rw [getMembers_setMembers_ne _ _ _ _ hc]
        exact h c'
  | addXmpp c rj anon mid =>
    cases hx : getXmppMemberByRealJid st c rj.stripped with
    | some m =>
      have := addXmppMember_of_found st c rj anon mid m hx
      simp only [applyOp, this]
      by_cases hc : c' = c
      · subst hc
        rw [getMembers_setMembers_self]
        constructor
        · rw [matrixKeys_mutateFirstXmpp]
          exact (h c').1
        · rw [xmppKeys_mutate_some]
          exact (h c').2
      · rw [getMembers_setMembers_ne _ _ _ _ hc]
        exact h c'
    | none =>
      simp only [applyOp, addXmppMember, hx]
      by_cases hc : c' = c
      · subst hc
        rw [getMembers_setMembers_self]
        have hnotin : rj.stripped.toString ∉ xmppKeys (getMembers st c') := by
          apply not_mem_xmppKeys_of_find_none
          have := getXmppMemberByRealJid_eq_aux st c' rj.stripped
          rw [hx] at this
          exact this.symm
        constructor
        · rw [matrixKeys_append, matrixKeys_cons_xmpp]
          simpa [matrixKeys] using (h c').1
        · rw [xmppKeys_append, xmppKeys_cons_xmpp]
          rw [List.nodup_append]
          refine ⟨(h c').2, by simp [xmppKeys], ?_⟩
          intro x hxk hmem
          simp only [xmppKeys, List.filterMap_nil, List.mem_cons,
            List.not_mem_nil, or_false] at hmem
          exact hnotin (hmem ▸ hxk)
      · rw [getMembers_setMembers_ne _ _ _ _ hc]
        exact h c'
  | removeMatrix c mid =>
    cases hx : getMatrixMemberByMatrixId st c mid with
    | none =>
      simp only [applyOp, removeMatrixMember, hx]
      exact h c'
    | some m =>
      simp only [applyOp, removeMatrixMember, hx]
      by_cases hc : c' = c
      · subst hc
        rw [getMembers_setMembers_self]
        have hsub := List.erase_sublist m (getMembers st c')
        exact ⟨((h c').1).sublist (matrixKeys_sublist _ _ hsub),
          ((h c').2).sublist (xmppKeys_sublist _ _ hsub)⟩
      · rw [getMembers_setMembers_ne _ _ _ _ hc]
        exact h c'
  | removeXmpp c rj =>
    cases hx : getXmppMemberByRealJid st c rj with
    | none =>
      simp only [applyOp, removeXmppMember, hx]
      exact h c'
    | some m =>
      have hdel : ∀ st2, st2 = setMembers st c
            (mutateFirstXmpp (getMembers st c) rj.bareString (fun _ => none)) →
          RoomInv (getMembers st2 c') := by
        intro st2 hst2
        subst hst2
        by_cases hc : c' = c
        · subst hc
          rw [getMembers_setMembers_self]
          have hsub := mutate_del_sublist (getMembers st c') rj.bareString
          exact ⟨((h c').1).sublist (matrixKeys_sublist _ _ hsub),
            ((h c').2).sublist (xmppKeys_sublist _ _ hsub)⟩
        · rw [getMembers_setMembers_ne _ _ _ _ hc]
          exact h c'
      by_cases hres : rj.resource.isSome = true
      · by_cases hemp : (m.devices.erase rj.toString).isEmpty = true
        · have := removeXmppMember_res_some_last st c rj m hx hres hemp
          simp only [applyOp, this]
          exact hdel _ rfl
        · have hne : (m.devices.erase rj.toString).isEmpty = false :=
            Bool.eq_false_iff.mpr hemp
          have := removeXmppMember_res_some_not_last st c rj m hx hres hne
          simp only [applyOp, this]
          by_cases hc : c' = c
          · subst hc
            rw [getMembers_setMembers_self]
            constructor
            · rw [matrixKeys_mutateFirstXmpp]
              exact (h c').1
            · rw [xmppKeys_mutate_some]
              exact (h c').2
          · rw [getMembers_setMembers_ne _ _ _ _ hc]
            exact h c'
      · have hres' : rj.resource = none := by
          cases hr2 : rj.resource with
          | none => rfl
          | some rr => rw [hr2] at hres; simp at hres
        have := removeXmppMember_bare st c rj m hx hres'
        simp only [applyOp, this]
        exact hdel _ rfl

theorem roomInv_applyOps (ops : List RegistryOp) (st : Membership)
    (h : ∀ c', RoomInv (getMembers st c')) :
    ∀ c', RoomInv (getMembers (applyOps st ops) c') := by
  induction ops generalizing st with
  | nil => exact h
  | cons op ops ih => exact ih (applyOp st op) (roomInv_applyOp st op h)

/-- **C3**: after any sequence of registry operations starting from the
empty registry, every room holds at most one MatrixParticipant per
matrix user id and at most one XmppParticipant per real identity; in
particular an additional device of an existing real identity never
creates a second participant entry. -/
theorem c3_registry_invariant (ops : List RegistryOp) (c : String) :
    RoomInv (getMembers (applyOps emptyMembership ops) c) := by
  have base : ∀ c', RoomInv (getMembers emptyMembership c') := by
    intro c'
    constructor <;> simp [getMembers, emptyMembership, matrixKeys, xmppKeys, List.find?]
  exact roomInv_applyOps ops emptyMembership base c

theorem foldl_append_eq_flatten (L : List (List String)) (acc : List String) :
    L.foldl (fun acc val => acc ++ val) acc = acc ++ L.flatten := by
  induction L generalizing acc with
  | nil => simp
  | cons x L ih => simp [List.foldl_cons, ih, List.append_assoc]

theorem mem_jsNewSetAux (x : String) (seen l : List String) :
    x ∈ jsNewSetAux seen l ↔ x ∈ l ∧ x ∉ seen := by
  induction l generalizing seen with
  | nil => simp [jsNewSetAux]
  | cons y l ih =>
    simp only [jsNewSetAux]
    by_cases hy : seen.contains y
    · rw [if_pos hy, ih]
      have hyseen : y ∈ seen := by simpa using hy
      simp only [List.mem_cons]
      constructor
      · rintro ⟨hxl, hxs⟩
        exact ⟨Or.inr hxl, hxs⟩
      · rintro ⟨hxy | hxl, hxs⟩
        · exact absurd (hxy ▸ hyseen) hxs
        · exact ⟨hxl, hxs⟩
    · rw [if_neg hy]
      have hyseen : y ∉ seen := by simpa using hy
      simp only [List.mem_cons, ih]
      constructor
      · rintro (hxy | ⟨hxl, hxs⟩)
        · exact ⟨Or.inl hxy, hxy ▸ hyseen⟩
        · exact ⟨Or.inr hxl, fun hc => hxs (Or.inr hc)⟩
      · rintro ⟨hxy | hxl, hxs⟩
        · exact Or.inl hxy
        · by_cases hxy2 : x = y
          · exact Or.inl hxy2
          · exact Or.inr ⟨hxl, by simp [hxy2, hxs]⟩

/-- **C9**: `getXmppMembersDevices` returns exactly the union of the
device sets of the room's XmppParticipants, and its two implementation
branches (the `Array.prototype.flat` path and the `reduce` fallback
selected by `FLAT_SUPPORTED`) return equal sets — indeed equal lists —
on every input. -/
theorem c9_getXmppMembersDevices (st : Membership) (c : String) :
    getXmppMembersDevicesFlat st c = getXmppMembersDevicesReduce st c ∧
    ∀ d, d ∈ getXmppMembersDevicesFlat st c ↔
      ∃ m, m ∈ getXmppMembers st c ∧ d ∈ m.devices := by
  constructor
  · unfold getXmppMembersDevicesFlat getXmppMembersDevicesReduce
    rw [foldl_append_eq_flatten, List.nil_append]
  · intro d
    unfold getXmppMembersDevicesFlat jsNewSet
    rw [mem_jsNewSetAux]
    simp [List.mem_flatten]

/-! ## Safety of the default `he.encode` output -/

theorem data_singleton (c : Char) : (String.singleton c).data = [c] := rfl

theorem ampSafe_of_no_amp (l : List Char) (h : ∀ ch ∈ l, ch ≠ Char.ofNat 38) :
    AmpSafe l := by
  induction l with
  | nil => exact AmpSafe.nil
  | cons c rest ih =>
    exact AmpSafe.chr c rest (h c (by simp)) (ih fun ch hch => h ch (by simp [hch]))

theorem ampSafe_append (l1 l2 : List Char) (h1 : AmpSafe l1) (h2 : AmpSafe l2) :
    AmpSafe (l1 ++ l2) := by
  induction h1 with
  | nil => exact h2
  | amp rest _hs ih => exact AmpSafe.amp _ ih
  | chr c rest h _hs ih => exact AmpSafe.chr c _ h ih

theorem rawFree_append (l1 l2 : List Char) (h1 : RawFree l1) (h2 : RawFree l2) :
    RawFree (l1 ++ l2) := by
  intro ch hch
  rcases List.mem_append.mp hch with h | h
  exacts [h1 ch h, h2 ch h]

theorem ampSafe_of_data_eq (s : String) (tail : List Char)
    (hdata : s.data = Char.ofNat 38 :: Char.ofNat 35 :: tail)
    (h : ∀ ch ∈ tail, ch ≠ Char.ofNat 38) : AmpSafe s.data := by
  rw [hdata]
  exact AmpSafe.amp _ (ampSafe_of_no_amp _ h)

theorem hexDigitChar_safe :
    ∀ m, m < 16 → hexDigitChar m ≠ Char.ofNat 38 ∧ hexDigitChar m ≠ Char.ofNat 60 ∧
      hexDigitChar m ≠ Char.ofNat 62 ∧ hexDigitChar m ≠ Char.ofNat 34 ∧
      hexDigitChar m ≠ Char.ofNat 39 := by decide

theorem natToHexUC_chars (n : Nat) :
    ∀ ch ∈ (natToHexUC n).data, ∃ m, m < 16 ∧ ch = hexDigitChar m := by
  induction n using Nat.strong_induction_on with
  | _ n ih =>
    rw [natToHexUC]
    split
    · intro ch hch
      rw [data_singleton] at hch
      simp only [List.mem_cons, List.not_mem_nil, or_false] at hch
      exact ⟨n, by omega, hch⟩
    · intro ch hch
      rw [String.data_append] at hch
      rcases List.mem_append.mp hch with h1 | h2
      · exact ih (n / 16) (Nat.div_lt_self (by omega) (by omega)) ch h1
      · rw [data_singleton] at h2
        simp only [List.mem_cons, List.not_mem_nil, or_false] at h2
        exact ⟨n % 16, Nat.mod_lt _ (by omega), h2⟩

theorem natToHexUC_rawFree (n : Nat) : RawFree (natToHexUC n).data := by
  intro ch hch
  obtain ⟨m, hm, hchm⟩ := natToHexUC_chars n ch hch
  have := hexDigitChar_safe m hm
  exact ⟨hchm ▸ this.2.1, hchm ▸ this.2.2.1, hchm ▸ this.2.2.2.1, hchm ▸ this.2.2.2.2⟩

theorem natToHexUC_no_amp (n : Nat) : ∀ ch ∈ (natToHexUC n).data, ch ≠ Char.ofNat 38 := by
  intro ch hch
  obtain ⟨m, hm, hchm⟩ := natToHexUC_chars n ch hch
  exact hchm ▸ (hexDigitChar_safe m hm).1

theorem ne_ofNat_of_toNat_ne (c : Char) (n : Nat) (hn : (Char.ofNat n).toNat = n)
    (h : c.toNat ≠ n) : c ≠ Char.ofNat n := fun hc => h (by rw [hc, hn])

theorem heEncodeChar_safe (c : Char) :
    RawFree (heEncodeChar c).data ∧ AmpSafe (heEncodeChar c).data := by
  unfold heEncodeChar
  by_cases h38 : c.toNat = 38
  · rw [if_pos h38]
    exact ⟨by unfold RawFree; decide, ampSafe_of_data_eq _ ("x26;").data (by decide) (by decide)⟩
  rw [if_neg h38]
  by_cases h60 : c.toNat = 60
  · rw [if_pos h60]
    exact ⟨by unfold RawFree; decide, ampSafe_of_data_eq _ ("x3C;").data (by decide) (by decide)⟩
  rw [if_neg h60]
  by_cases h62 : c.toNat = 62
  · rw [if_pos h62]
    exact ⟨by unfold RawFree; decide, ampSafe_of_data_eq _ ("x3E;").data (by decide) (by decide)⟩
  rw [if_neg h62]
  by_cases h34 : c.toNat = 34
  · rw [if_pos h34]
    exact ⟨by unfold RawFree; decide, ampSafe_of_data_eq _ ("x22;").data (by decide) (by decide)⟩
  rw [if_neg h34]
  by_cases h39 : c.toNat = 39
  · rw [if_pos h39]
    exact ⟨by unfold RawFree; decide, ampSafe_of_data_eq _ ("x27;").data (by decide) (by decide)⟩
  rw [if_neg h39]
  by_cases h96 : c.toNat = 96
  · rw [if_pos h96]
    exact ⟨by unfold RawFree; decide, ampSafe_of_data_eq _ ("x60;").data (by decide) (by decide)⟩
  rw [if_neg h96]
  by_cases hrange : c.toNat < 32 || 126 < c.toNat
  · rw [if_pos hrange]
    constructor
    · rw [String.data_append, String.data_append]
      apply rawFree_append
      · apply rawFree_append
        · unfold RawFree
          decide
        · exact natToHexUC_rawFree _
      · unfold RawFree
        decide
    · apply ampSafe_of_data_eq _ (Char.ofNat 120 :: (natToHexUC c.toNat).data
        ++ (";").data)
      · rw [String.data_append, String.data_append]
        have hx : ("&#x").data = [Char.ofNat 38, Char.ofNat 35, Char.ofNat 120] := by decide
        rw [hx]
        simp
      · intro ch hch
        rcases List.mem_cons.mp hch with h | h
        · subst h
          decide
        · rcases List.mem_append.mp h with h | h
          · exact natToHexUC_no_amp _ ch h
          · have hsemi : (";").data = [Char.ofNat 59] := by decide
            rw [hsemi] at h
            simp only [List.mem_cons, List.not_mem_nil, or_false] at h
            subst h
            decide
  · rw [if_neg hrange]
    constructor
    · intro ch hch
      rw [data_singleton] at hch
      simp only [List.mem_cons, List.not_mem_nil, or_false] at hch
      subst hch
      exact ⟨ne_ofNat_of_toNat_ne _ _ (by decide) h60,
        ne_ofNat_of_toNat_ne _ _ (by decide) h62,
        ne_ofNat_of_toNat_ne _ _ (by decide) h34,
        ne_ofNat_of_toNat_ne _ _ (by decide) h39⟩
    · rw [data_singleton]
      exact ampSafe_of_no_amp _ (by
        intro ch hch
        simp only [List.mem_cons, List.not_mem_nil, or_false] at hch
        subst hch
        exact ne_ofNat_of_toNat_ne _ _ (by decide) h38)

theorem heEncodeList_safe (l : List Char) :
    RawFree (heEncodeList l).data ∧ AmpSafe (heEncodeList l).data := by
  induction l with
  | nil =>
    constructor
    · intro ch hch
      cases hch
    · exact AmpSafe.nil
  | cons c rest ih =>
    show RawFree (heEncodeChar c ++ heEncodeList rest).data ∧
      AmpSafe (heEncodeChar c ++ heEncodeList rest).data
    rw [String.data_append]
    exact ⟨rawFree_append _ _ (heEncodeChar_safe c).1 ih.1,
      ampSafe_append _ _ (heEncodeChar_safe c).2 ih.2⟩

theorem heEncode_safe (s : String) :
    RawFree (heEncode s).data ∧ AmpSafe (heEncode s).data :=
  heEncodeList_safe s.data

theorem heEncodeChar_data_ne_nil (c : Char) : (heEncodeChar c).data ≠ [] := by
  unfold heEncodeChar
  split
  · decide
  split
  · decide
  split
  · decide
  split
  · decide
  split
  · decide
  split
  · decide
  split
  · intro hnil
    rw [String.data_append] at hnil
    rcases List.append_eq_nil.mp hnil with ⟨h1, _⟩
    rw [String.data_append] at h1
    rcases List.append_eq_nil.mp h1 with ⟨h2, _⟩
    exact absurd h2 (by decide)
  · rw [data_singleton]
    simp

theorem heEncode_ne_empty (s : String) (h : s ≠ "") : heEncode s ≠ "" := by
  intro hc
  apply h
  cases hd : s.data with
  | nil =>
    apply String.ext
    rw [hd]
  | cons c rest =>
    exfalso
    have : (heEncode s).data = [] := by rw [hc]
    unfold heEncode at this
    rw [hd] at this
    show False
    have h2 : (heEncodeChar c ++ heEncodeList rest).data = [] := this
    rw [String.data_append] at h2
    exact heEncodeChar_data_ne_nil c (List.append_eq_nil.mp h2).1

theorem append_ne_empty_left (s t : String) (h : s ≠ "") : s ++ t ≠ "" := by
  intro hc
  apply h
  have hd : (s ++ t).data = [] := by rw [hc]
  rw [String.data_append] at hd
  have h1 := (List.append_eq_nil.mp hd).1
  apply String.ext
  rw [h1]

theorem intercalate_singleton (sep x : String) : String.intercalate sep [x] = x := rfl

/-- Every `StzaMessage` renders to the message template: the `from`,
`to` and `id` attributes carry the stored (he-encoded) base fields, the
body is he-encoded at render time after the single-attachment override,
and the out-of-band elements are comma-joined (JS array interpolation). -/
theorem stzaMessage_xml_template (m : StzaMessage) :
    m.xml = "<message from=\"" ++ m.base.fromE ++ "\" to=\"" ++ m.base.toE ++ "\" id=\""
      ++ m.base.idE ++ "\" "
      ++ (match m.messageType with
          | some tt => if tt = "" then "" else "type='" ++ tt ++ "'"
          | none => "")
      ++ ">" ++ m.html ++ "<body>"
      ++ heEncode (if m.attachments.length = 1 then m.attachments.headD "" else m.body)
      ++ "</body>"
      ++ String.intercalate "," (m.attachments.map
          (fun a => "<x xmlns='jabber:x:oob'><url>" ++ heEncode a ++ "</url></x>"))
      ++ "</message>" := by
  unfold StzaMessage.xml StzaMessage.render
  by_cases hl : m.attachments.length = 1 <;> simp [hl]

/-- **C5**: every `from`/`to`/`id`/`body` input containing `<`, `>`, `&`
or a quote renders with those characters entity-encoded, never raw: the
fields reach the rendered templates only through `he.encode`
(conjuncts 2–4), and `he.encode` output contains no raw `<` `>` `"` `'`
while each `&` in it opens a character reference (conjunct 1). -/
theorem c5_fields_entity_encoded :
    (∀ s : String, RawFree (heEncode s).data ∧ AmpSafe (heEncode s).data) ∧
    (∀ from_ to_ msg mt freshId,
      (mkStzaMessageFromRecord from_ to_ msg mt freshId).xml
        = "<message from=\"" ++ heEncode from_ ++ "\" to=\"" ++ heEncode to_ ++ "\" id=\""
          ++ (mkStzaMessageFromRecord from_ to_ msg mt freshId).base.idE ++ "\" "
          ++ (match mt with
              | some tt => if tt = "" then "" else "type='" ++ tt ++ "'"
              | none => "")
          ++ ">" ++ (mkStzaMessageFromRecord from_ to_ msg mt freshId).html
          ++ "<body>"
          ++ heEncode
              (if (mkStzaMessageFromRecord from_ to_ msg mt freshId).attachments.length = 1
                then (mkStzaMessageFromRecord from_ to_ msg mt freshId).attachments.headD ""
                else msg.body)
          ++ "</body>"
          ++ String.intercalate ","
              ((mkStzaMessageFromRecord from_ to_ msg mt freshId).attachments.map
                (fun a => "<x xmlns='jabber:x:oob'><url>" ++ heEncode a ++ "</url></x>"))
          ++ "</message>") ∧
    (∀ from_ to_ msg mt freshId i, msg.id = some i → i ≠ "" →
      (mkStzaMessageFromRecord from_ to_ msg mt freshId).base.idE = heEncode i) ∧
    (∀ from_ to_ id, (mkStzaIqDiscoInfo from_ to_ id).xml
        = "<iq from='" ++ heEncode from_ ++ "' to='" ++ heEncode to_ ++ "' id='"
          ++ (if id = "" then "undefined" else heEncode id)
          ++ "' type='result'>\n        <query xmlns='http://jabber.org/protocol/disco#info'>\n        "
          ++ (mkStzaIqDiscoInfo from_ to_ id).queryContent ++ "</query></iq>") := by
  refine ⟨heEncode_safe, ?_, ?_, ?_⟩
  · intro from_ to_ msg mt freshId
    exact stzaMessage_xml_template _
  · intro from_ to_ msg mt freshId i hid hne
    show (if storeId msg.id = "" then storeId (some freshId) else storeId msg.id)
      = heEncode i
    rw [hid]
    have h1 : storeId (some i) = heEncode i := by simp [storeId, hne]
    rw [h1, if_neg (heEncode_ne_empty i hne)]
  · intro from_ to_ id
    unfold StzaIqDiscoInfo.xml
    by_cases hid : id = ""
    · simp [mkStzaIqDiscoInfo, mkStzaBase, storeId, hid]
    · have h1 : storeId (some id) = heEncode id := by simp [storeId, hid]
      simp [mkStzaIqDiscoInfo, mkStzaBase, h1, hid, heEncode_ne_empty id hid]

theorem stzaPresenceItem_xContent_ne_empty (s : StzaPresenceItem) : s.xContent ≠ "" := by
  simp only [StzaPresenceItem.xContent]
  refine append_ne_empty_left _ _ ?_
  refine append_ne_empty_left _ _ ?_
  refine append_ne_empty_left _ _ ?_
  refine append_ne_empty_left _ _ ?_
  refine append_ne_empty_left _ _ ?_
  refine append_ne_empty_left _ _ ?_
  refine append_ne_empty_left _ _ ?_
  decide

/-- **C6 (amended)**: a `Presence/Item` built with `jid = ""` renders an
item element with no jid attribute at all; with a non-empty `jid` the
attribute appears with the jid value **verbatim** — the `jid` field is
interpolated as stored, without entity encoding (see the counterexample
for the original "entity-encoded" wording). -/
theorem c6_presence_item_jid (from_ to_ : String) (id : Option String)
    (aff role : String) (self : Bool) (jid itemType : String) :
    (jid = "" →
      (mkStzaPresenceItem from_ to_ id aff role self jid itemType).xContent
        = "<item affiliation='" ++ aff ++ "'" ++ " role='" ++ role ++ "'/>"
          ++ (if self then "<status code='110'/>" else "")) ∧
    (jid ≠ "" →
      (mkStzaPresenceItem from_ to_ id aff role self jid itemType).xContent
        = "<item affiliation='" ++ aff ++ "'" ++ (" jid='" ++ jid ++ "'")
          ++ " role='" ++ role ++ "'/>"
          ++ (if self then "<status code='110'/>" else "")) ∧
    (mkStzaPresenceItem from_ to_ id aff role self jid itemType).xml
      = "<presence from=\"" ++ heEncode from_ ++ "\" to=\"" ++ heEncode to_ ++ "\""
        ++ (if storeId id = "" then "" else " id=\"" ++ storeId id ++ "\"")
        ++ (if itemType = "" then "" else " type='" ++ itemType ++ "'") ++ ">"
        ++ ("<x xmlns='http://jabber.org/protocol/muc#user'>"
            ++ (mkStzaPresenceItem from_ to_ id aff role self jid itemType).xContent
            ++ "</x>")
        ++ "</presence>" := by
  refine ⟨?_, ?_, ?_⟩
  · intro hj
    simp [mkStzaPresenceItem, mkStzaBase, StzaPresenceItem.xContent, hj]
  · intro hj
    simp [mkStzaPresenceItem, mkStzaBase, StzaPresenceItem.xContent, hj]
  · unfold StzaPresenceItem.xml
    rw [if_neg (stzaPresenceItem_xContent_ne_empty _)]
    simp only [mkStzaPresenceItem, mkStzaBase]

set_option maxRecDepth 100000 in
/-- **C6 counterexample**: constructed with the non-empty
`jid = "a&b@dom"`, the rendered stanza does not contain the
entity-encoded attribute value (`a&#x26;b@dom`) anywhere; it contains
the raw `jid='a&b@dom'` attribute instead — refuting the claim that the
jid attribute value is entity-encoded. -/
theorem c6_jid_not_encoded_counterexample :
    countPrefixOcc (" jid='a&#x26;b@dom'").data
        ((mkStzaPresenceItem "room@muc/anon" "to@x" none "member" "participant" false
          "a&b@dom" "").xml).data = 0 ∧
    countPrefixOcc (" jid='a&b@dom'").data
        ((mkStzaPresenceItem "room@muc/anon" "to@x" none "member" "participant" false
          "a&b@dom" "").xml).data = 1 := by
  constructor <;> decide

/-- **C7**: a `Message` built from a record with exactly one attachment
renders its `<body>` as the entity-encoded attachment URL, overриding
whatever `body` the record supplied, and the render mutates the stored
body to the attachment URL; with zero or several attachments the
supplied body renders (encoded) unchanged. -/
theorem c7_single_attachment_overrides_body (from_ to_ : String)
    (msg : IBasicProtocolMessage) (mt : Option String) (freshId : String) :
    (∀ a, msg.attachments = some [a] →
      ((mkStzaMessageFromRecord from_ to_ msg mt freshId).xml
        = "<message from=\"" ++ heEncode from_ ++ "\" to=\"" ++ heEncode to_ ++ "\" id=\""
          ++ (mkStzaMessageFromRecord from_ to_ msg mt freshId).base.idE ++ "\" "
          ++ (match mt with
              | some tt => if tt = "" then "" else "type='" ++ tt ++ "'"
              | none => "")
          ++ ">" ++ (mkStzaMessageFromRecord from_ to_ msg mt freshId).html
          ++ "<body>" ++ heEncode a.uri ++ "</body>"
          ++ ("<x xmlns='jabber:x:oob'><url>" ++ heEncode a.uri ++ "</url></x>")
          ++ "</message>") ∧
      (mkStzaMessageFromRecord from_ to_ msg mt freshId).render.2.body = a.uri) ∧
    ((msg.attachments.getD []).length ≠ 1 →
      (mkStzaMessageFromRecord from_ to_ msg mt freshId).xml
        = "<message from=\"" ++ heEncode from_ ++ "\" to=\"" ++ heEncode to_ ++ "\" id=\""
          ++ (mkStzaMessageFromRecord from_ to_ msg mt freshId).base.idE ++ "\" "
          ++ (match mt with
              | some tt => if tt = "" then "" else "type='" ++ tt ++ "'"
              | none => "")
          ++ ">" ++ (mkStzaMessageFromRecord from_ to_ msg mt freshId).html
          ++ "<body>" ++ heEncode msg.body ++ "</body>"
          ++ String.intercalate ","
              ((mkStzaMessageFromRecord from_ to_ msg mt freshId).attachments.map
                (fun a => "<x xmlns='jabber:x:oob'><url>" ++ heEncode a ++ "</url></x>"))
          ++ "</message>") := by
  constructor
  · intro a hatt
    have hattl : (mkStzaMessageFromRecord from_ to_ msg mt freshId).attachments
        = [a.uri] := by
      simp [mkStzaMessageFromRecord, hatt]
    constructor
    · rw [stzaMessage_xml_template, hattl]
      simp [mkStzaMessageFromRecord, hatt, intercalate_singleton]
    · simp [StzaMessage.render, hattl]
  · intro hlen
    have hlen2 : (mkStzaMessageFromRecord from_ to_ msg mt freshId).attachments.length
        ≠ 1 := by
      have heq : (mkStzaMessageFromRecord from_ to_ msg mt freshId).attachments.length
          = (msg.attachments.getD []).length := by
        cases hx : msg.attachments <;> simp [mkStzaMessageFromRecord, hx]
      rw [heq]
      exact hlen
    rw [stzaMessage_xml_template, if_neg hlen2]
    simp [mkStzaMessageFromRecord]

/-- **C8 (amended)**: disco#info rendering is pure — the render state
transformer returns the object unchanged, so a second render yields
identical text — and adding an already-present feature string leaves the
instance (hence the rendered output) unchanged.  Identity triples are
deduplicated only by object reference: re-adding a structurally equal
triple appends a second element (see the counterexample against the
original claim). -/
theorem addFeature_of_contains (t : StzaIqDiscoInfo) (feat : String)
    (h : t.feature.contains feat = true) : t.addFeature feat = t := by
  unfold StzaIqDiscoInfo.addFeature
  rw [if_pos h]

theorem c8_disco_render_idempotent (s : StzaIqDiscoInfo) (feat : String) :
    s.render.2 = s ∧
    s.render.2.render.1 = s.render.1 ∧
    (s.addFeature feat).addFeature feat = s.addFeature feat := by
  refine ⟨rfl, rfl, ?_⟩
  by_cases h : s.feature.contains feat = true
  · rw [addFeature_of_contains s feat h, addFeature_of_contains s feat h]
  · apply addFeature_of_contains
    unfold StzaIqDiscoInfo.addFeature
    rw [if_neg h]
    simp

set_option maxRecDepth 100000 in
/-- **C8 counterexample**: re-adding a structurally equal identity
triple does increase the number of `<identity>` elements in the
rendered output (from one to two): the JS `Set` holds objects compared
by reference, so the fresh object literal built at the call site is
always a new element. -/
theorem c8_duplicate_identity_counterexample :
    countPrefixOcc ("<identity").data
        ((((mkStzaIqDiscoInfo "a@b" "c@d" "i1").addIdentity
            ⟨"gateway", "xmpp", "Bridge"⟩).addIdentity
            ⟨"gateway", "xmpp", "Bridge"⟩).xml).data = 2 ∧
    countPrefixOcc ("<identity").data
        (((mkStzaIqDiscoInfo "a@b" "c@d" "i1").addIdentity
            ⟨"gateway", "xmpp", "Bridge"⟩).xml).data = 1 := by
  constructor <;> decide

/-! ## Witnesses -/

theorem c1_addXmppMember_two_devices_witness :
    getXmppMemberByRealJid [] "r" ⟨"a", "b", some "1"⟩ = none ∧
    JID.toString ⟨"a", "b", some "1"⟩ ≠ JID.toString ⟨"a", "b", some "2"⟩ ∧
    ((addXmppMember [] "r" ⟨"a", "b", some "1"⟩ ⟨"c", "d", some "e"⟩ "m").1 = true ∧
     (addXmppMember (addXmppMember [] "r" ⟨"a", "b", some "1"⟩ ⟨"c", "d", some "e"⟩ "m").2
        "r" ⟨"a", "b", some "2"⟩ ⟨"f", "g", some "h"⟩ "n").1 = false ∧
     ((getXmppMembers (addXmppMember
          (addXmppMember [] "r" ⟨"a", "b", some "1"⟩ ⟨"c", "d", some "e"⟩ "m").2
          "r" ⟨"a", "b", some "2"⟩ ⟨"f", "g", some "h"⟩ "n").2 "r").filter
        (fun m => m.realJidStr == "a" ++ "@" ++ "b"))
      = [GatewayMember.xmpp ⟨"c", "d", some "e"⟩ "m" ⟨"a", "b", none⟩
          [JID.toString ⟨"a", "b", some "1"⟩, JID.toString ⟨"a", "b", some "2"⟩]]) :=
  ⟨by decide, by decide,
    c1_addXmppMember_two_devices [] "r" "a" "b" "1" "2" ⟨"c", "d", some "e"⟩
      ⟨"f", "g", some "h"⟩ "m" "n" (by decide) (by decide)⟩

theorem c2_removeXmppMember_witness :
    RoomInv (getMembers
      (addXmppMember [] "r" ⟨"a", "b", some "1"⟩ ⟨"c", "d", some "e"⟩ "m").2 "r") ∧
    getXmppMemberByRealJid
        (addXmppMember [] "r" ⟨"a", "b", some "1"⟩ ⟨"c", "d", some "e"⟩ "m").2 "r"
        ⟨"a", "b", some "1"⟩
      = some (GatewayMember.xmpp ⟨"c", "d", some "e"⟩ "m" ⟨"a", "b", none⟩
          [JID.toString ⟨"a", "b", some "1"⟩]) ∧
    (((JID.resource ⟨"a", "b", some "1"⟩).isSome = true →
      (((GatewayMember.xmpp ⟨"c", "d", some "e"⟩ "m" ⟨"a", "b", none⟩
            [JID.toString ⟨"a", "b", some "1"⟩] : GatewayMember).devices.erase
          (JID.toString ⟨"a", "b", some "1"⟩) ≠ [] →
        (removeXmppMember
          (addXmppMember [] "r" ⟨"a", "b", some "1"⟩ ⟨"c", "d", some "e"⟩ "m").2 "r"
          ⟨"a", "b", some "1"⟩).1 = false ∧
        ∃ m', getXmppMemberByRealJid (removeXmppMember
            (addXmppMember [] "r" ⟨"a", "b", some "1"⟩ ⟨"c", "d", some "e"⟩ "m").2 "r"
            ⟨"a", "b", some "1"⟩).2 "r" ⟨"a", "b", some "1"⟩ = some m' ∧
          m'.anonymousJid = (GatewayMember.xmpp ⟨"c", "d", some "e"⟩ "m" ⟨"a", "b", none⟩
            [JID.toString ⟨"a", "b", some "1"⟩] : GatewayMember).anonymousJid ∧
          m'.matrixId = (GatewayMember.xmpp ⟨"c", "d", some "e"⟩ "m" ⟨"a", "b", none⟩
            [JID.toString ⟨"a", "b", some "1"⟩] : GatewayMember).matrixId ∧
          m'.realJidStr = (GatewayMember.xmpp ⟨"c", "d", some "e"⟩ "m" ⟨"a", "b", none⟩
            [JID.toString ⟨"a", "b", some "1"⟩] : GatewayMember).realJidStr ∧
          m'.devices = (GatewayMember.xmpp ⟨"c", "d", some "e"⟩ "m" ⟨"a", "b", none⟩
            [JID.toString ⟨"a", "b", some "1"⟩] : GatewayMember).devices.erase
              (JID.toString ⟨"a", "b", some "1"⟩)) ∧
       ((GatewayMember.xmpp ⟨"c", "d", some "e"⟩ "m" ⟨"a", "b", none⟩
            [JID.toString ⟨"a", "b", some "1"⟩] : GatewayMember).devices.erase
          (JID.toString ⟨"a", "b", some "1"⟩) = [] →
        (removeXmppMember
          (addXmppMember [] "r" ⟨"a", "b", some "1"⟩ ⟨"c", "d", some "e"⟩ "m").2 "r"
          ⟨"a", "b", some "1"⟩).1 = true ∧
        getXmppMemberByRealJid (removeXmppMember
          (addXmppMember [] "r" ⟨"a", "b", some "1"⟩ ⟨"c", "d", some "e"⟩ "m").2 "r"
          ⟨"a", "b", some "1"⟩).2 "r" ⟨"a", "b", some "1"⟩ = none))) ∧
    (JID.resource ⟨"a", "b", some "1"⟩ = none →
      (removeXmppMember
        (addXmppMember [] "r" ⟨"a", "b", some "1"⟩ ⟨"c", "d", some "e"⟩ "m").2 "r"
        ⟨"a", "b", some "1"⟩).1 = true ∧
      getXmppMemberByRealJid (removeXmppMember
        (addXmppMember [] "r" ⟨"a", "b", some "1"⟩ ⟨"c", "d", some "e"⟩ "m").2 "r"
        ⟨"a", "b", some "1"⟩).2 "r" ⟨"a", "b", some "1"⟩ = none)) :=
  ⟨by unfold RoomInv; decide, by decide,
    c2_removeXmppMember
      (addXmppMember [] "r" ⟨"a", "b", some "1"⟩ ⟨"c", "d", some "e"⟩ "m").2 "r"
      ⟨"a", "b", some "1"⟩
      (GatewayMember.xmpp ⟨"c", "d", some "e"⟩ "m" ⟨"a", "b", none⟩
        [JID.toString ⟨"a", "b", some "1"⟩])
      (by unfold RoomInv; decide) (by decide)⟩

theorem c4_addMatrixMember_redundant_witness :
    (addMatrixMember [] "r" "@alice:hs" ⟨"c", "d", some "e"⟩).1 = true ∧
    (addMatrixMember (addMatrixMember [] "r" "@alice:hs" ⟨"c", "d", some "e"⟩).2
        "r" "@alice:hs" ⟨"c", "d", some "e"⟩
      = (false, (addMatrixMember [] "r" "@alice:hs" ⟨"c", "d", some "e"⟩).2) ∧
    ((getMatrixMembers (addMatrixMember [] "r" "@alice:hs" ⟨"c", "d", some "e"⟩).2
        "r").filter (fun m => m.matrixId == "@alice:hs")).length = 1) :=
  ⟨by decide,
    c4_addMatrixMember_redundant [] "r" "@alice:hs" ⟨"c", "d", some "e"⟩ (by decide)⟩

theorem c5_fields_entity_encoded_witness :
    (RawFree (heEncode "a&b<c>'d\"e").data ∧ AmpSafe (heEncode "a&b<c>'d\"e").data) ∧
    (mkStzaMessageFromRecord "f" "t" ⟨"hello", none, none, some "i<1"⟩ none "u").base.idE
      = heEncode "i<1" :=
  ⟨c5_fields_entity_encoded.1 "a&b<c>'d\"e",
    c5_fields_entity_encoded.2.2.1 "f" "t" ⟨"hello", none, none, some "i<1"⟩ none "u"
      "i<1" rfl (by decide)⟩

theorem c6_presence_item_jid_witness :
    (mkStzaPresenceItem "f" "t" none "member" "participant" false "" "").xContent
      = "<item affiliation='" ++ "member" ++ "'" ++ " role='" ++ "participant" ++ "'/>"
        ++ (if false then "<status code='110'/>" else "") ∧
    (mkStzaPresenceItem "f" "t" none "member" "participant" false "u@h" "").xContent
      = "<item affiliation='" ++ "member" ++ "'" ++ (" jid='" ++ "u@h" ++ "'")
        ++ " role='" ++ "participant" ++ "'/>"
        ++ (if false then "<status code='110'/>" else "") :=
  ⟨(c6_presence_item_jid "f" "t" none "member" "participant" false "" "").1 rfl,
    (c6_presence_item_jid "f" "t" none "member" "participant" false "u@h" "").2.1
      (by decide)⟩

theorem c7_single_attachment_overrides_body_witness :
    (mkStzaMessageFromRecord "f" "t" ⟨"hello", none, some [⟨"http://u/p.png"⟩], some "i"⟩
        none "u").render.2.body = "http://u/p.png" :=
  ((c7_single_attachment_overrides_body "f" "t"
      ⟨"hello", none, some [⟨"http://u/p.png"⟩], some "i"⟩ none "u").1
    ⟨"http://u/p.png"⟩ rfl).2

theorem c10_addXmppMember_frame_witness :
    getXmppMemberByRealJid
        (addXmppMember [] "r" ⟨"a", "b", some "1"⟩ ⟨"c", "d", some "e"⟩ "m").2 "r"
        (JID.stripped ⟨"a", "b", some "2"⟩)
      = some (GatewayMember.xmpp ⟨"c", "d", some "e"⟩ "m" ⟨"a", "b", none⟩
          [JID.toString ⟨"a", "b", some "1"⟩]) ∧
    ((addXmppMember (addXmppMember [] "r" ⟨"a", "b", some "1"⟩ ⟨"c", "d", some "e"⟩ "m").2
        "r" ⟨"a", "b", some "2"⟩ ⟨"f", "g", some "h"⟩ "n").1 = false ∧
     ∃ m', getXmppMemberByRealJid
          (addXmppMember (addXmppMember [] "r" ⟨"a", "b", some "1"⟩ ⟨"c", "d", some "e"⟩ "m").2
            "r" ⟨"a", "b", some "2"⟩ ⟨"f", "g", some "h"⟩ "n").2 "r"
          (JID.stripped ⟨"a", "b", some "2"⟩) = some m' ∧
      m'.anonymousJid = (GatewayMember.xmpp ⟨"c", "d", some "e"⟩ "m" ⟨"a", "b", none⟩
        [JID.toString ⟨"a", "b", some "1"⟩] : GatewayMember).anonymousJid ∧
      m'.matrixId = (GatewayMember.xmpp ⟨"c", "d", some "e"⟩ "m" ⟨"a", "b", none⟩
        [JID.toString ⟨"a", "b", some "1"⟩] : GatewayMember).matrixId ∧
      m'.realJidStr = (GatewayMember.xmpp ⟨"c", "d", some "e"⟩ "m" ⟨"a", "b", none⟩
        [JID.toString ⟨"a", "b", some "1"⟩] : GatewayMember).realJidStr ∧
      m'.isXmpp = true ∧
      m'.devices = addDevice (GatewayMember.xmpp ⟨"c", "d", some "e"⟩ "m" ⟨"a", "b", none⟩
        [JID.toString ⟨"a", "b", some "1"⟩] : GatewayMember).devices
          (JID.toString ⟨"a", "b", some "2"⟩)) :=
  ⟨by decide,
    c10_addXmppMember_frame
      (addXmppMember [] "r" ⟨"a", "b", some "1"⟩ ⟨"c", "d", some "e"⟩ "m").2 "r"
      ⟨"a", "b", some "2"⟩ ⟨"f", "g", some "h"⟩ "n"
      (GatewayMember.xmpp ⟨"c", "d", some "e"⟩ "m" ⟨"a", "b", none⟩
        [JID.toString ⟨"a", "b", some "1"⟩])
      (by decide)⟩

end MUCGateway
